import Mathlib

/-!
Shallow embedding of `reactive-custom-element` (src/src/reactive-custom-element.js
and src/src/custom-element.js).

The library is a glue layer: a custom-element base class whose reactive
subclass keeps two pieces of per-element state, `this[DATA]` (the data object)
and `this.subscriptions` (a plain JS object mapping subscription names to the
opaque handles returned by the external store's `subscribe`), and delegates
rendering to the external `lit-html` `render` function.

External library calls (`Store(...).subscribe`, `getDataFromPath`, `Data`,
`parse`, `lit-html` `render`, `setTimeout`) are modelled as events recorded in
a trace, with their return values supplied by an explicit environment.  JS
plain objects used as string-keyed maps are modelled as insertion-ordered
association lists: assigning to an existing key overwrites it in place,
assigning to a fresh key appends it, which matches JS own-property order for
string keys.
-/

/-- A JavaScript value, as far as the embedded code inspects one: `undefined`,
`null`, numbers, strings, and plain objects (insertion-ordered string-keyed
field lists).  Store data flowing through the element is otherwise opaque. -/
inductive Value where
  | vundef : Value
  | vnull : Value
  | vnum : Int → Value
  | vstr : String → Value
  | vobj : List (String × Value) → Value

/-- Assignment `obj[k] = v` on a JS object viewed as an association list:
overwrite in place when the key exists, append otherwise. -/
def setEntry {α : Type} : List (String × α) → String → α → List (String × α)
  | [], k, v => [(k, v)]
  | (k0, v0) :: rest, k, v =>
      if k0 = k then (k, v) :: rest else (k0, v0) :: setEntry rest k v

/-- Property lookup `obj[k]` on a JS object viewed as an association list. -/
def getEntry {α : Type} : List (String × α) → String → Option α
  | [], _ => none
  | (k0, v0) :: rest, k => if k0 = k then some v0 else getEntry rest k

/-- JS truthiness of an optional string (the `name` and `store` values the code
tests with `name ? _ : _`, `name || _`, `Boolean(store)`): `undefined` and the
empty string are falsy, every other string is truthy. -/
def truthy : Option String → Bool
  | none => false
  | some s => !(s == "")

/-- `undefined`/falsy coalescing `a || b` on optional strings. -/
def orElse (a : Option String) (b : String) : String :=
  if truthy a then a.getD "" else b

/-- Removes the first occurrence of a character from a character list. -/
def removeFirstChar : List Char → Char → List Char
  | [], _ => []
  | x :: xs, c => if x = c then xs else x :: removeFirstChar xs c

/-- `this.tagName.replace('-', '')`: JS `String.prototype.replace` with a
string pattern replaces only the FIRST occurrence, so with pattern `'-'` and
empty replacement this removes the first hyphen of the tag name. -/
def tagKey (tagName : String) : String :=
  String.mk (removeFirstChar tagName.data '-')

/-- One parsed store definition, as produced by the external
`reactive-data-store` `parse` and destructured by `subscribeToStore` as
`let \x7bname, store, storePath, just, not\x7d = data`.  Absent fields are
`none` (JS `undefined`). -/
structure StoreSpec where
  name : Option String
  store : String
  storePath : Option String
  just : Option String
  not : Option String
deriving Repr, DecidableEq

/-- An external call made by the reactive layer, recorded in the element's
trace.  `subscribeEvt` records a `Store(store).subscribe(\x7bcallback, storePath,
just, not, name\x7d)` call together with the key the returned handle is stored
under and the fresh handle it returned; the registered callback is
`this.updateData(name).bind(this)`, determined by the recorded `name`.
`renderEvt` is a synchronous `this.render()`; `deferRenderEvt` is
`setTimeout(this.render.bind(this))`. -/
inductive Event where
  | subscribeEvt (store : String) (key : String) (handle : Nat)
      (storePath : Option String) (just : Option String) (not : Option String)
      (name : Option String) : Event
  | unsubscribeEvt (handle : Nat) : Event
  | getDataEvt (store : String) (storePath : Option String)
      (just : Option String) (not : Option String) : Event
  | renderEvt : Event
  | deferRenderEvt : Event
deriving Repr, DecidableEq

/-- The reactive per-element state: `this.tagName` (fixed by the element's
definition), `this[DATA]`, `this.subscriptions` (name to unsubscribe handle,
handles modelled as the `Nat` ids allocated by `nextHandle`), plus the trace of
external calls made so far.  The base-class bookkeeping of
`custom-element.js` (`events`, `rendered`, styles) is modelled separately with
`render` below. -/
structure ElementState where
  tagName : String
  data : Value
  subscriptions : List (String × Nat)
  nextHandle : Nat
  trace : List Event

/-- The `ReactiveCustomElement` constructor: `this[DATA] = \x7b\x7d;
this.subscriptions = \x7b\x7d;`. -/
def initElement (tag : String) : ElementState :=
  { tagName := tag
    data := Value.vobj []
    subscriptions := []
    nextHandle := 0
    trace := [] }

/-- The deterministic results of the external `reactive-data-store` calls the
element makes: `Data(store)` and `getDataFromPath(\x7bstorePath, just, not,
data\x7d)`, plus `parse` applied to a store-definition string (whose result is
either a single spec or an array of specs, scrutinised with
`Array.isArray`). -/
structure StoreEnv where
  dataOf : String → Value
  getDataFromPath : Option String → Option String → Option String → Value → Value
  parse : String → List StoreSpec ⊕ StoreSpec

/-- `this.data[name] = x` when the data value is an object.  Assigning a
property on a non-object would throw a `TypeError` in JS strict mode; the
theorems below that read data contents carry an explicit object hypothesis,
and on a non-object this model leaves the value unchanged. -/
def setDataField (v : Value) (k : String) (x : Value) : Value :=
  match v with
  | Value.vobj fs => Value.vobj (setEntry fs k x)
  | other => other

/-- `unsubscribeFromStore(name)`: invoke the stored handle's `unsubscribe`
when an entry exists (subscription handles are JS objects, hence truthy), do
nothing otherwise.  Note the entry is NOT removed from the map. -/
def unsubscribeFromStore (st : ElementState) (name : String) : ElementState :=
  match getEntry st.subscriptions name with
  | some h => { st with trace := st.trace ++ [Event.unsubscribeEvt h] }
  | none => st

/-- `unsubscribeFromAllStores()`: `Object.keys(this.subscriptions)` is an
array, which is truthy even when empty, so the guarded block always runs: it
invokes `unsubscribe` on every stored handle in key order and then resets
`this.subscriptions = \x7b\x7d`. -/
def unsubscribeFromAllStores (st : ElementState) : ElementState :=
  { st with
    trace := st.trace ++ st.subscriptions.map (fun p => Event.unsubscribeEvt p.2)
    subscriptions := [] }

/-- `disconnectedCallback()`: `super.disconnectedCallback()` (which only runs
the base class's event-listener removal functions) followed by
`unsubscribeFromAllStores()`. -/
def disconnectedCallback (st : ElementState) : ElementState :=
  unsubscribeFromAllStores st

/-- The callback produced by `updateData(name)`: runs the `beforeUpdate` hook
(a no-op by default), then writes `this.data[name] = data` when `name` is
truthy and `this.data = data` otherwise, then calls `this.render()`
synchronously.  (The `DEBUG` branch only defers a `console.log`, never a
render.) -/
def updateData (name : Option String) (st : ElementState) (d : Value) : ElementState :=
  let st1 :=
    if truthy name then
      { st with data := setDataField st.data (name.getD "") d }
    else
      { st with data := d }
  { st1 with trace := st1.trace ++ [Event.renderEvt] }

/-- The key a subscription is stored under: `name || tagname` with
`tagname = this.tagName.replace('-', '')`. -/
def subKey (tagName : String) (name : Option String) : String :=
  orElse name (tagKey tagName)

/-- `subscribeToStore(data, dorender)`: unsubscribe any previous subscription
under the key, store the fresh handle returned by `Store(store).subscribe`
under the key, populate the data (under `name` when truthy, else wholesale)
from `getDataFromPath` over `Data(store)`, and render synchronously when
`dorender` is set. -/
def subscribeToStore (env : StoreEnv) (st : ElementState) (spec : StoreSpec)
    (dorender : Bool) : ElementState :=
  let key := subKey st.tagName spec.name
  let st1 := unsubscribeFromStore st key
  let h := st1.nextHandle
  let st2 := { st1 with
    nextHandle := h + 1
    subscriptions := setEntry st1.subscriptions key h
    trace := st1.trace ++
      [Event.subscribeEvt spec.store key h spec.storePath spec.just spec.not spec.name] }
  let extracted :=
    env.getDataFromPath spec.storePath spec.just spec.not (env.dataOf spec.store)
  let st3 := { st2 with
    trace := st2.trace ++ [Event.getDataEvt spec.store spec.storePath spec.just spec.not] }
  let st4 :=
    if truthy spec.name then
      { st3 with data := setDataField st3.data (spec.name.getD "") extracted }
    else
      { st3 with data := extracted }
  if dorender then { st4 with trace := st4.trace ++ [Event.renderEvt] } else st4

/-- `setStore(store)`: `dorender = Boolean(store)`; parse `store ||
this.dataset.store` and subscribe to the single spec or to every spec of the
array. -/
def setStore (env : StoreEnv) (st : ElementState) (store : Option String)
    (datasetStore : String) : ElementState :=
  let dorender := truthy store
  match env.parse (orElse store datasetStore) with
  | Sum.inl specs => specs.foldl (fun s spec => subscribeToStore env s spec dorender) st
  | Sum.inr spec => subscribeToStore env st spec dorender

/-- `attributeChangedCallback(attr)`: on `data-store`, call `setStore()` (no
argument, so no synchronous render) and defer a render with
`setTimeout(this.render.bind(this))`; any other attribute is ignored. -/
def attributeChangedCallback (env : StoreEnv) (st : ElementState) (attr : String)
    (datasetStore : String) : ElementState :=
  if attr = "data-store" then
    let st1 := setStore env st none datasetStore
    { st1 with trace := st1.trace ++ [Event.deferRenderEvt] }
  else st

/-- A `lit-html` template value as far as the embedded code inspects one:
either the empty template `` this.html`` `` or an opaque template produced by a
subclass's `template()`.  Template values are objects, hence truthy. -/
inductive Tpl where
  | emptyTpl : Tpl
  | tplVal : Nat → Tpl
deriving Repr, DecidableEq

/-- A DOM-affecting call made by `CustomElement.render` (custom-element.js).
`renderTemplateCall tpl root` is the delegated external `lit-html`
`render(tpl, root)` call — the only template rendering that happens; the
repository performs no diffing or patching of its own.  The remaining calls
are the stylesheet `link` appends, the `style` element append, and the
`setTimeout` that later fires the `onRender`/`rendered` hooks. -/
inductive RCall where
  | renderTemplateCall (tpl : Tpl) (root : Nat) : RCall
  | appendStylesheetLink (href : String) : RCall
  | appendStyleElement : RCall
  | deferLifecycleHooks : RCall
deriving Repr, DecidableEq

/-- The parts of a `CustomElement` instance that `render` reads: the result of
the overridable `preRenderCheck()` (`true` by default), the result of the
overridable `template()` (`none` models returning `undefined`, which is
falsy), the mount target `this.root` (the element itself or its shadow root,
as an opaque id), `this.stylesheets` (`none` when the constructor never set
it), whether `this.selector('link')` already finds a link, whether
`this.styles` was set, and whether `this.selector('style')` already finds a
style element. -/
structure RenderState where
  preRenderCheck : Bool
  template : Option Tpl
  root : Nat
  stylesheets : Option (List String)
  hasLinkAlready : Bool
  styles : Bool
  hasStyleAlready : Bool
deriving Repr, DecidableEq

/-- `buildStylesheets()`: bail out when `this.stylesheets` is undefined or a
`link` is already present (`!this.stylesheets` is false for an empty array,
which is truthy in JS), otherwise append one stylesheet link per entry, with
the href looked up in the `STYLESHEETS` global. -/
def buildStylesheets (sheetHref : String → String) (st : RenderState) : List RCall :=
  match st.stylesheets with
  | none => []
  | some sheets =>
      if st.hasLinkAlready then []
      else sheets.map (fun s => RCall.appendStylesheetLink (sheetHref s))

/-- `CustomElement.render()`: return without touching the DOM when
`preRenderCheck()` fails; otherwise run the `beforeRender` hook (no-op by
default), compute `tpl = this.template() || this.html`` ` and delegate to the
external `renderTemplate(tpl, this.root)`, then `buildStylesheets()`, append
`this.styles` when set and not already present, and defer the
`onFirstRender`/`onRender`/`rendered` lifecycle step via `setTimeout`. -/
def render (sheetHref : String → String) (st : RenderState) : List RCall :=
  if !st.preRenderCheck then []
  else
    RCall.renderTemplateCall (st.template.getD Tpl.emptyTpl) st.root ::
      (buildStylesheets sheetHref st ++
        (if st.styles && !st.hasStyleAlready then [RCall.appendStyleElement] else []) ++
        [RCall.deferLifecycleHooks])

/-- The external calls of `subscribeToStore` and `render` as fallible
operations, for the error-propagation analysis: each call either succeeds
with its result or raises an error of type `ε` (whatever the store library,
renderer, or browser API throws). -/
structure EnvE (ε : Type) where
  subscribeE : StoreSpec → Except ε Nat
  dataOfE : String → Except ε Value
  getDataFromPathE : Option String → Option String → Option String → Value → Except ε Value
  unsubscribeE : Nat → Except ε Unit
  renderTemplateE : Tpl → Nat → Except ε Unit

/-- `unsubscribeFromStore` with a fallible handle: the source has no
`try`/`catch`, so an error raised by `unsubscribe()` propagates unchanged. -/
def unsubscribeFromStoreE {ε : Type} (env : EnvE ε) (st : ElementState)
    (name : String) : Except ε ElementState :=
  match getEntry st.subscriptions name with
  | some h => do
      let _ ← env.unsubscribeE h
      pure st
  | none => pure st

/-- `subscribeToStore` with fallible external calls, in source order:
`unsubscribeFromStore`, then `Store(store).subscribe(...)`, then
`Data(store)` and `getDataFromPath(...)`.  No call is wrapped in
`try`/`catch`, so the first error aborts the operation and propagates
unchanged.  (The trailing `this.render()` taken when `dorender` is set is
analysed separately as `renderE`.) -/
def subscribeToStoreE {ε : Type} (env : EnvE ε) (st : ElementState)
    (spec : StoreSpec) : Except ε ElementState := do
  let key := subKey st.tagName spec.name
  let st1 ← unsubscribeFromStoreE env st key
  let h ← env.subscribeE spec
  let st2 := { st1 with subscriptions := setEntry st1.subscriptions key h }
  let base ← env.dataOfE spec.store
  let extracted ← env.getDataFromPathE spec.storePath spec.just spec.not base
  let st3 :=
    if truthy spec.name then
      { st2 with data := setDataField st2.data (spec.name.getD "") extracted }
    else
      { st2 with data := extracted }
  pure st3

/-- `CustomElement.render` with a fallible external renderer: the
`renderTemplate(tpl, this.root)` call is not wrapped in `try`/`catch`, so an
error it raises propagates unchanged. -/
def renderE {ε : Type} (env : EnvE ε) (st : RenderState) : Except ε Unit :=
  if !st.preRenderCheck then pure ()
  else env.renderTemplateE (st.template.getD Tpl.emptyTpl) st.root

/-- One step of the subscription-bookkeeping API: a `subscribeToStore` call or
an `unsubscribeFromStore` call. -/
inductive SubOp where
  | subscribeOp (spec : StoreSpec) (dorender : Bool) : SubOp
  | unsubscribeOp (name : String) : SubOp

/-- Runs a sequence of subscription operations on an element state. -/
def runOps (env : StoreEnv) : List SubOp → ElementState → ElementState
  | [], st => st
  | SubOp.subscribeOp spec dorender :: rest, st =>
      runOps env rest (subscribeToStore env st spec dorender)
  | SubOp.unsubscribeOp name :: rest, st =>
      runOps env rest (unsubscribeFromStore st name)

/-- Reads property `k` of a data value: `some` only on objects that carry the
field. -/
def dataField (v : Value) (k : String) : Option Value :=
  match v with
  | Value.vobj fs => getEntry fs k
  | _ => none

/-- Recognises the delegated external `lit-html` `render` call among the
DOM-affecting steps of `CustomElement.render`. -/
def isRenderTemplateCall : RCall → Bool
  | RCall.renderTemplateCall _ _ => true
  | _ => false

/-- Well-formed subscription bookkeeping: every entry of `this.subscriptions`
pairs a key with a handle that was returned by a `Store(...).subscribe` call
recorded in the trace for exactly that key, and the key is `name ||
tagName.replace('-', '')` for the `name` of that call. -/
def SubsWF (tag : String) (st : ElementState) : Prop :=
  ∀ p ∈ st.subscriptions, ∃ store sp j n nm,
    Event.subscribeEvt store p.1 p.2 sp j n nm ∈ st.trace ∧ p.1 = subKey tag nm

/-- A concrete store environment for concrete evaluations: every store holds
the object `\x7bcount: 3\x7d`, path extraction is the identity on the store data,
and `parse` yields a single nameless spec for the store `app`. -/
def envA : StoreEnv :=
  { dataOf := fun _ => Value.vobj [("count", Value.vnum 3)]
    getDataFromPath := fun _ _ _ d => d
    parse := fun _ =>
      Sum.inr { name := none, store := "app", storePath := none, just := none, not := none } }

/-- A nameless parsed store definition for the store `app`. -/
def specApp : StoreSpec :=
  { name := none, store := "app", storePath := none, just := none, not := none }

/-- A named parsed store definition: name `user`, store `app`, path
`user.profile`. -/
def specUser : StoreSpec :=
  { name := some "user", store := "app", storePath := some "user.profile"
    just := none, not := none }

/-- A render state whose pre-render check passes: a subclass template, one
stylesheet, inline styles not yet attached. -/
def rstA : RenderState :=
  { preRenderCheck := true, template := some (Tpl.tplVal 7), root := 1
    stylesheets := some ["main"], hasLinkAlready := false, styles := true
    hasStyleAlready := false }

/-- A concrete element holding one subscription, `user` with handle `3`. -/
def stUser : ElementState :=
  { tagName := "MY-ELEMENT", data := Value.vobj [], subscriptions := [("user", 3)]
    nextHandle := 4, trace := [] }

/-- A concrete fallible environment whose store `subscribe` and renderer calls
raise the error string `boom`. -/
def envErr : EnvE String :=
  { subscribeE := fun _ => Except.error "boom"
    dataOfE := fun _ => Except.ok Value.vnull
    getDataFromPathE := fun _ _ _ _ => Except.ok Value.vnull
    unsubscribeE := fun _ => Except.ok ()
    renderTemplateE := fun _ _ => Except.error "boom" }

theorem getEntry_setEntry_self {α : Type} (l : List (String × α)) (k : String) (v : α) :
    getEntry (setEntry l k v) k = some v := by
  induction l with
  | nil => simp [setEntry, getEntry]
  | cons p rest ih =>
      obtain ⟨k0, v0⟩ := p
      by_cases h : k0 = k
      · simp [setEntry, getEntry, h]
      · simp [setEntry, getEntry, h, ih]

theorem getEntry_setEntry_ne {α : Type} (l : List (String × α)) (k k1 : String) (v : α)
    (h : k1 ≠ k) : getEntry (setEntry l k v) k1 = getEntry l k1 := by
  induction l with
  | nil => simpa [setEntry, getEntry] using Ne.symm h
  | cons p rest ih =>
      obtain ⟨k0, v0⟩ := p
      by_cases hk : k0 = k
      · subst hk
        simp [setEntry, getEntry, h, Ne.symm h]
      · simp [setEntry, getEntry, hk, ih]

theorem mem_setEntry {α : Type} (l : List (String × α)) (k : String) (v : α)
    (p : String × α) (hp : p ∈ setEntry l k v) : p = (k, v) ∨ p ∈ l := by
  induction l with
  | nil => simpa [setEntry] using hp
  | cons q rest ih =>
      obtain ⟨k0, v0⟩ := q
      by_cases h : k0 = k
      · simp [setEntry, h] at hp
        rcases hp with hp | hp
        · exact Or.inl hp
        · exact Or.inr (List.mem_cons_of_mem _ hp)
      · simp [setEntry, h] at hp
        rcases hp with hp | hp
        · exact Or.inr (by simp [hp])
        · rcases ih hp with hp1 | hp1
          · exact Or.inl hp1
          · exact Or.inr (List.mem_cons_of_mem _ hp1)

theorem unsubscribeFromStore_eq (st : ElementState) (name : String) :
    unsubscribeFromStore st name =
      { st with trace := st.trace ++
          (match getEntry st.subscriptions name with
            | some h0 => [Event.unsubscribeEvt h0]
            | none => []) } := by
  unfold unsubscribeFromStore
  cases getEntry st.subscriptions name <;> simp

theorem subscribeToStore_eq (env : StoreEnv) (st : ElementState) (spec : StoreSpec)
    (dorender : Bool) :
    subscribeToStore env st spec dorender =
      { tagName := st.tagName
        data :=
          if truthy spec.name then
            setDataField st.data (spec.name.getD "")
              (env.getDataFromPath spec.storePath spec.just spec.not (env.dataOf spec.store))
          else
            env.getDataFromPath spec.storePath spec.just spec.not (env.dataOf spec.store)
        subscriptions := setEntry st.subscriptions (subKey st.tagName spec.name) st.nextHandle
        nextHandle := st.nextHandle + 1
        trace := st.trace ++
          (match getEntry st.subscriptions (subKey st.tagName spec.name) with
            | some h0 => [Event.unsubscribeEvt h0]
            | none => []) ++
          [Event.subscribeEvt spec.store (subKey st.tagName spec.name) st.nextHandle
              spec.storePath spec.just spec.not spec.name,
            Event.getDataEvt spec.store spec.storePath spec.just spec.not] ++
          (if dorender then [Event.renderEvt] else []) } := by
  unfold subscribeToStore
  simp only [unsubscribeFromStore_eq]
  cases hget : getEntry st.subscriptions (subKey st.tagName spec.name) <;>
    cases hn : truthy spec.name <;>
      cases dorender <;>
        simp [hget, hn]

theorem subscribeToStore_tagName (env : StoreEnv) (st : ElementState) (spec : StoreSpec)
    (dorender : Bool) : (subscribeToStore env st spec dorender).tagName = st.tagName := by
  rw [subscribeToStore_eq]

theorem unsubscribeFromStore_tagName (st : ElementState) (name : String) :
    (unsubscribeFromStore st name).tagName = st.tagName := by
  rw [unsubscribeFromStore_eq]

theorem subsWF_subscribeToStore (env : StoreEnv) (tag : String) (st : ElementState)
    (spec : StoreSpec) (dorender : Bool) (htag : st.tagName = tag) (hwf : SubsWF tag st) :
    SubsWF tag (subscribeToStore env st spec dorender) := by
  rw [subscribeToStore_eq]
  intro p hp
  rcases mem_setEntry _ _ _ _ hp with hp1 | hp1
  · subst hp1
    refine ⟨spec.store, spec.storePath, spec.just, spec.not, spec.name, ?_, by rw [htag]⟩
    simp
  · obtain ⟨store, sp, j, n, nm, hmem, hkey⟩ := hwf p hp1
    exact ⟨store, sp, j, n, nm, by simp [hmem], hkey⟩

theorem subsWF_unsubscribeFromStore (tag : String) (st : ElementState) (name : String)
    (hwf : SubsWF tag st) : SubsWF tag (unsubscribeFromStore st name) := by
  rw [unsubscribeFromStore_eq]
  intro p hp
  obtain ⟨store, sp, j, n, nm, hmem, hkey⟩ := hwf p hp
  exact ⟨store, sp, j, n, nm, by simp [hmem], hkey⟩

theorem subsWF_runOps (env : StoreEnv) (tag : String) (ops : List SubOp) (st : ElementState)
    (htag : st.tagName = tag) (hwf : SubsWF tag st) : SubsWF tag (runOps env ops st) := by
  induction ops generalizing st with
  | nil => exact hwf
  | cons op rest ih =>
      cases op with
      | subscribeOp spec dorender =>
          exact ih (subscribeToStore env st spec dorender)
            (by rw [subscribeToStore_tagName, htag])
            (subsWF_subscribeToStore env tag st spec dorender htag hwf)
      | unsubscribeOp name =>
          exact ih (unsubscribeFromStore st name)
            (by rw [unsubscribeFromStore_tagName, htag])
            (subsWF_unsubscribeFromStore tag st name hwf)

theorem subscribeToStore_trace_norender (env : StoreEnv) (st : ElementState)
    (spec : StoreSpec) :
    ∃ es, (subscribeToStore env st spec false).trace = st.trace ++ es ∧
      Event.renderEvt ∉ es ∧ Event.deferRenderEvt ∉ es := by
  rw [subscribeToStore_eq]
  refine ⟨(match getEntry st.subscriptions (subKey st.tagName spec.name) with
      | some h0 => [Event.unsubscribeEvt h0]
      | none => []) ++
    [Event.subscribeEvt spec.store (subKey st.tagName spec.name) st.nextHandle
        spec.storePath spec.just spec.not spec.name,
      Event.getDataEvt spec.store spec.storePath spec.just spec.not], ?_, ?_, ?_⟩
  · simp
  · cases getEntry st.subscriptions (subKey st.tagName spec.name) <;> simp
  · cases getEntry st.subscriptions (subKey st.tagName spec.name) <;> simp

theorem foldl_subscribe_trace_norender (env : StoreEnv) (specs : List StoreSpec)
    (st : ElementState) :
    ∃ es, (specs.foldl (fun s spec => subscribeToStore env s spec false) st).trace =
        st.trace ++ es ∧ Event.renderEvt ∉ es ∧ Event.deferRenderEvt ∉ es := by
  induction specs generalizing st with
  | nil => exact ⟨[], by simp, by simp, by simp⟩
  | cons spec rest ih =>
      obtain ⟨es1, h1, hr1, hd1⟩ := subscribeToStore_trace_norender env st spec
      obtain ⟨es2, h2, hr2, hd2⟩ := ih (subscribeToStore env st spec false)
      refine ⟨es1 ++ es2, ?_, ?_, ?_⟩
      · simp only [List.foldl_cons, h2, h1, List.append_assoc]
      · simp [hr1, hr2]
      · simp [hd1, hd2]

theorem setStore_attr_trace (env : StoreEnv) (st : ElementState) (ds : String) :
    ∃ es, (setStore env st none ds).trace = st.trace ++ es ∧
      Event.renderEvt ∉ es ∧ Event.deferRenderEvt ∉ es := by
  unfold setStore
  cases env.parse (orElse none ds) with
  | inl specs => simpa [truthy] using foldl_subscribe_trace_norender env specs st
  | inr spec => simpa [truthy] using subscribeToStore_trace_norender env st spec

theorem filter_buildStylesheets (sheetHref : String → String) (st : RenderState) :
    (buildStylesheets sheetHref st).filter isRenderTemplateCall = [] := by
  unfold buildStylesheets
  cases st.stylesheets with
  | none => rfl
  | some sheets =>
      cases st.hasLinkAlready with
      | true => simp
      | false =>
          simp only [Bool.false_eq_true, if_false]
          induction sheets with
          | nil => simp
          | cons s rest ih => simp [isRenderTemplateCall, ih]

/-- C1: when the element is torn down (`disconnectedCallback`), every entry of
its subscriptions map has its unsubscribe handle invoked — the invocation is
recorded in the trace of the completed teardown — and the subscriptions map is
left empty. -/
theorem disconnect_unsubscribes_all (st : ElementState) :
    (disconnectedCallback st).subscriptions = [] ∧
    (disconnectedCallback st).trace =
      st.trace ++ st.subscriptions.map (fun p => Event.unsubscribeEvt p.2) ∧
    ∀ p ∈ st.subscriptions,
      Event.unsubscribeEvt p.2 ∈ (disconnectedCallback st).trace := by
  refine ⟨rfl, rfl, ?_⟩
  intro p hp
  simp only [disconnectedCallback, unsubscribeFromAllStores, List.mem_append]
  exact Or.inr (List.mem_map_of_mem _ hp)

/-- C1 witness: tearing down a concrete element with one subscription invokes
that subscription's unsubscribe handle. -/
theorem disconnect_unsubscribes_all_witness :
    Event.unsubscribeEvt 3 ∈ (disconnectedCallback stUser).trace :=
  (disconnect_unsubscribes_all stUser).2.2 ("user", 3) (by simp [stUser])

/-- C2 counterexample: at a concrete store-driven update, the callback
produced by `updateData` renders synchronously — the update step's trace is
exactly an immediate render, with no deferred callback enqueued — so the
claim that store-driven updates batch the render through the deferred-callback
facility fails. -/
theorem store_update_not_deferred_cex :
    (updateData (some "user") (initElement "MY-ELEMENT") (Value.vnum 1)).trace =
      [Event.renderEvt] ∧
    Event.deferRenderEvt ∉
      (updateData (some "user") (initElement "MY-ELEMENT") (Value.vnum 1)).trace := by
  exact ⟨by decide, by decide⟩

/-- C2 (amended): an attribute-driven update (`attributeChangedCallback` on
`data-store`) enqueues exactly one deferred render via `setTimeout` and
performs no synchronous render, while a store-driven update (the callback
produced by `updateData`) performs its render immediately within the update
step and enqueues no deferred callback. -/
theorem render_batching (env : StoreEnv) (st : ElementState) (ds : String)
    (name : Option String) (d : Value) :
    (∃ es, (attributeChangedCallback env st "data-store" ds).trace =
        st.trace ++ es ++ [Event.deferRenderEvt] ∧
      Event.renderEvt ∉ es ∧ Event.deferRenderEvt ∉ es) ∧
    (updateData name st d).trace = st.trace ++ [Event.renderEvt] := by
  constructor
  · obtain ⟨es, h1, hr, hd⟩ := setStore_attr_trace env st ds
    refine ⟨es, ?_, hr, hd⟩
    simp [attributeChangedCallback, h1]
  · cases hn : truthy name <;> simp [updateData, hn]

/-- C3 counterexample: subscribing with no parsed name on an element whose tag
name is `MY-ELEMENT` stores the handle under the key `MYELEMENT` — the tag
name with its first hyphen removed — which is not the element's tag name. -/
theorem subscription_key_cex :
    (subscribeToStore envA (initElement "MY-ELEMENT") specApp false).subscriptions =
      [("MYELEMENT", 0)] ∧
    specApp.name = none ∧
    ("MYELEMENT" : String) ≠ "MY-ELEMENT" := by
  exact ⟨by decide, rfl, by decide⟩

/-- C3 (amended): after any sequence of `subscribeToStore` and
`unsubscribeFromStore` operations, the subscription bookkeeping is a map whose
keys are subscription names — the parsed name, or the element's tag name with
its first hyphen removed when no name is given — and whose values are exactly
the unsubscribe handles returned by the store's subscribe call recorded for
that key. -/
theorem subscriptions_bookkeeping (env : StoreEnv) (tag : String) (ops : List SubOp) :
    SubsWF tag (runOps env ops (initElement tag)) :=
  subsWF_runOps env tag ops (initElement tag) rfl
    (by intro p hp; simp [initElement] at hp)

/-- C3 witness: after one nameless subscribe on tag `MY-ELEMENT`, the map's
single entry `("MYELEMENT", 0)` is justified by a recorded subscribe event
whose key is the tag name with its first hyphen removed. -/
theorem subscriptions_bookkeeping_witness :
    ∃ store sp j n nm,
      Event.subscribeEvt store "MYELEMENT" 0 sp j n nm ∈
        (runOps envA [SubOp.subscribeOp specApp false] (initElement "MY-ELEMENT")).trace ∧
      ("MYELEMENT" : String) = subKey "MY-ELEMENT" nm :=
  subscriptions_bookkeeping envA "MY-ELEMENT" [SubOp.subscribeOp specApp false]
    ("MYELEMENT", 0) (by decide)

/-- C9: for a name with no entry in the subscriptions map,
`unsubscribeFromStore` is a no-op: the state is returned unchanged, so no
unsubscribe handle is invoked, no event is emitted, and the subscriptions map
and the data value are untouched (and the total model raises nothing). -/
theorem unsubscribe_absent_noop (st : ElementState) (name : String)
    (h : getEntry st.subscriptions name = none) :
    unsubscribeFromStore st name = st := by
  rw [unsubscribeFromStore_eq, h]
  simp

/-- C9 witness: unsubscribing a name on a freshly constructed element is a
no-op. -/
theorem unsubscribe_absent_noop_witness :
    unsubscribeFromStore (initElement "MY-ELEMENT") "user" = initElement "MY-ELEMENT" :=
  unsubscribe_absent_noop (initElement "MY-ELEMENT") "user" rfl

/-- C10: for a truthy (non-empty) subscription name, the callback produced by
`updateData` writes the received data only under that name — every other
property of the data object is unchanged — while for an absent or empty name
it replaces the element's entire data value with the received data. -/
theorem update_data_frame (st : ElementState) (s : String) (m : List (String × Value))
    (d : Value) (hs : s ≠ "") (hm : st.data = Value.vobj m) :
    dataField (updateData (some s) st d).data s = some d ∧
    (∀ k, k ≠ s → dataField (updateData (some s) st d).data k = dataField st.data k) ∧
    (updateData none st d).data = d ∧
    (updateData (some "") st d).data = d := by
  have ht : truthy (some s) = true := by simp [truthy, hs]
  refine ⟨?_, ?_, ?_, ?_⟩
  · simp [updateData, ht, hm, setDataField, dataField, getEntry_setEntry_self]
  · intro k hk
    simp [updateData, ht, hm, setDataField, dataField, getEntry_setEntry_ne _ _ _ _ hk]
  · simp [updateData, truthy]
  · simp [updateData, truthy]

/-- C10 witness: updating `user` on a concrete data object stores the new
value under `user` and leaves the property `a` unchanged. -/
theorem update_data_frame_witness :
    dataField (updateData (some "user")
        { tagName := "MY-ELEMENT", data := Value.vobj [("a", Value.vnum 1)]
          subscriptions := [], nextHandle := 0, trace := [] }
        (Value.vnum 9)).data "user" = some (Value.vnum 9) ∧
    dataField (updateData (some "user")
        { tagName := "MY-ELEMENT", data := Value.vobj [("a", Value.vnum 1)]
          subscriptions := [], nextHandle := 0, trace := [] }
        (Value.vnum 9)).data "a" = some (Value.vnum 1) := by
  have h := update_data_frame
    { tagName := "MY-ELEMENT", data := Value.vobj [("a", Value.vnum 1)]
      subscriptions := [], nextHandle := 0, trace := [] }
    "user" [("a", Value.vnum 1)] (Value.vnum 9) (by decide) rfl
  exact ⟨h.1, (h.2.1 "a" (by decide)).trans rfl⟩

/-- C4: `subscribeToStore` uses exactly the external store API, in source
order: the optional unsubscribe of a previous handle under the key, a
`Store(store).subscribe` call registering the `updateData(name)` callback
(identified by the recorded `name`), and an immediate `getDataFromPath`
extraction over `Data(store)` whose result populates `this.data[name]` when a
name is given and replaces the whole data value otherwise. -/
theorem subscribe_uses_store_api (env : StoreEnv) (st : ElementState) (spec : StoreSpec)
    (dorender : Bool) :
    (subscribeToStore env st spec dorender).trace =
      st.trace ++
        (match getEntry st.subscriptions (subKey st.tagName spec.name) with
          | some h0 => [Event.unsubscribeEvt h0]
          | none => []) ++
        [Event.subscribeEvt spec.store (subKey st.tagName spec.name) st.nextHandle
            spec.storePath spec.just spec.not spec.name,
          Event.getDataEvt spec.store spec.storePath spec.just spec.not] ++
        (if dorender then [Event.renderEvt] else []) ∧
    (subscribeToStore env st spec dorender).data =
      (if truthy spec.name then
        setDataField st.data (spec.name.getD "")
          (env.getDataFromPath spec.storePath spec.just spec.not (env.dataOf spec.store))
      else
        env.getDataFromPath spec.storePath spec.just spec.not (env.dataOf spec.store)) := by
  rw [subscribeToStore_eq]
  exact ⟨rfl, rfl⟩

/-- C5: the reactive layer's persistent state starts as exactly the two empty
mappings (`this[DATA]` and `this.subscriptions`), and a store update received
for a truthy subscription name overwrites the stored value for that property
name with the newly received data, so after successive updates the entry
holds the last value received. -/
theorem state_last_value_received (tag s : String) (st : ElementState)
    (m : List (String × Value)) (d1 d2 : Value) (hs : s ≠ "")
    (hm : st.data = Value.vobj m) :
    (initElement tag).data = Value.vobj [] ∧
    (initElement tag).subscriptions = [] ∧
    dataField (updateData (some s) st d1).data s = some d1 ∧
    dataField (updateData (some s) (updateData (some s) st d1) d2).data s = some d2 := by
  have ht : truthy (some s) = true := by simp [truthy, hs]
  refine ⟨rfl, rfl, ?_, ?_⟩
  · simp [updateData, ht, hm, setDataField, dataField, getEntry_setEntry_self]
  · simp [updateData, ht, hm, setDataField, dataField, getEntry_setEntry_self]

/-- C5 witness: two successive store updates for `user` leave the last
received value stored under `user`. -/
theorem state_last_value_received_witness :
    dataField (updateData (some "user")
        (updateData (some "user") (initElement "X-EL") (Value.vnum 1))
        (Value.vnum 2)).data "user" = some (Value.vnum 2) :=
  (state_last_value_received "X-EL" "user" (initElement "X-EL") [] (Value.vnum 1)
    (Value.vnum 2) (by decide) rfl).2.2.2

/-- C6: when the pre-render check passes, `render` delegates template
rendering entirely to the external renderer: the element's template value (or
the empty template when `template()` returns nothing) is passed to the
external `renderTemplate` together with the element's root as the mount
target, and that delegated call is the only template-rendering step — every
other step is a stylesheet or style-element append or the deferred lifecycle
hooks, never diffing or DOM patching of the template by this repository. -/
theorem render_delegates_to_renderer (sheetHref : String → String) (st : RenderState)
    (h : st.preRenderCheck = true) :
    RCall.renderTemplateCall (st.template.getD Tpl.emptyTpl) st.root ∈
        render sheetHref st ∧
    (render sheetHref st).filter isRenderTemplateCall =
      [RCall.renderTemplateCall (st.template.getD Tpl.emptyTpl) st.root] := by
  constructor
  · simp [render, h]
  · simp [render, h, List.filter_append, filter_buildStylesheets, isRenderTemplateCall]
    intro a _ _ ha
    subst ha
    rfl

/-- C6 witness: rendering a concrete element state passes its template value
and root to the external renderer, as the only template-rendering call. -/
theorem render_delegates_to_renderer_witness :
    RCall.renderTemplateCall (rstA.template.getD Tpl.emptyTpl) rstA.root ∈
        render (fun s => s) rstA ∧
    (render (fun s => s) rstA).filter isRenderTemplateCall =
      [RCall.renderTemplateCall (rstA.template.getD Tpl.emptyTpl) rstA.root] :=
  render_delegates_to_renderer (fun s => s) rstA rfl

/-- C8: a `subscribeToStore` call under a key that already has an entry
invokes the previously stored handle's unsubscribe first — before the new
subscribe call is recorded and its fresh handle stored — and afterwards the
map holds the fresh handle under that key. -/
theorem resubscribe_replaces_old (env : StoreEnv) (st : ElementState) (spec : StoreSpec)
    (dorender : Bool) (h0 : Nat)
    (hh : getEntry st.subscriptions (subKey st.tagName spec.name) = some h0) :
    (subscribeToStore env st spec dorender).trace =
      st.trace ++
        [Event.unsubscribeEvt h0,
          Event.subscribeEvt spec.store (subKey st.tagName spec.name) st.nextHandle
            spec.storePath spec.just spec.not spec.name,
          Event.getDataEvt spec.store spec.storePath spec.just spec.not] ++
        (if dorender then [Event.renderEvt] else []) ∧
    getEntry (subscribeToStore env st spec dorender).subscriptions
        (subKey st.tagName spec.name) = some st.nextHandle := by
  rw [subscribeToStore_eq]
  constructor
  · rw [hh]
    simp
  · exact getEntry_setEntry_self _ _ _

/-- C8 witness: resubscribing `user` on a concrete element that already holds
handle `3` under `user` unsubscribes handle `3` before storing the fresh
handle `4`. -/
theorem resubscribe_replaces_old_witness :
    (subscribeToStore envA stUser specUser false).trace =
      [Event.unsubscribeEvt 3,
        Event.subscribeEvt "app" "user" 4 (some "user.profile") none none (some "user"),
        Event.getDataEvt "app" (some "user.profile") none none] ∧
    getEntry (subscribeToStore envA stUser specUser false).subscriptions "user" =
      some 4 :=
  resubscribe_replaces_old envA stUser specUser false 3 (by decide)

/-- C7: no operation catches, translates, or wraps errors: whichever external
call fails first — the old handle's `unsubscribe`, the store `subscribe`, the
`Data`/`getDataFromPath` extraction, or the external renderer — the operation
propagates that same error unchanged. -/
theorem no_error_taxonomy {ε : Type} (env : EnvE ε) (e : ε) :
    (∀ st name h0, getEntry st.subscriptions name = some h0 →
        env.unsubscribeE h0 = Except.error e →
        unsubscribeFromStoreE env st name = Except.error e) ∧
    (∀ st spec, getEntry st.subscriptions (subKey st.tagName spec.name) = none →
        env.subscribeE spec = Except.error e →
        subscribeToStoreE env st spec = Except.error e) ∧
    (∀ st spec h1, getEntry st.subscriptions (subKey st.tagName spec.name) = none →
        env.subscribeE spec = Except.ok h1 →
        env.dataOfE spec.store = Except.error e →
        subscribeToStoreE env st spec = Except.error e) ∧
    (∀ st spec h1 base, getEntry st.subscriptions (subKey st.tagName spec.name) = none →
        env.subscribeE spec = Except.ok h1 →
        env.dataOfE spec.store = Except.ok base →
        env.getDataFromPathE spec.storePath spec.just spec.not base = Except.error e →
        subscribeToStoreE env st spec = Except.error e) ∧
    (∀ st, st.preRenderCheck = true →
        env.renderTemplateE (st.template.getD Tpl.emptyTpl) st.root = Except.error e →
        renderE env st = Except.error e) := by
  refine ⟨?_, ?_, ?_, ?_, ?_⟩
  · intro st name h0 hget herr
    simp [unsubscribeFromStoreE, hget, herr]
  · intro st spec hget herr
    simp [subscribeToStoreE, unsubscribeFromStoreE, hget, herr, Bind.bind, Except.bind,
      pure, Except.pure]
  · intro st spec h1 hget hok herr
    simp [subscribeToStoreE, unsubscribeFromStoreE, hget, hok, herr, Bind.bind,
      Except.bind, pure, Except.pure]
  · intro st spec h1 base hget hok hbase herr
    simp [subscribeToStoreE, unsubscribeFromStoreE, hget, hok, hbase, herr, Bind.bind,
      Except.bind, Functor.map, Except.map, pure, Except.pure]
  · intro st hpre herr
    simp [renderE, hpre, herr]

/-- C7 witness: with a concrete environment whose store `subscribe` and
renderer raise `boom`, a concrete subscribe operation and a concrete render
both surface exactly `boom`. -/
theorem no_error_taxonomy_witness :
    subscribeToStoreE envErr (initElement "X-EL") specApp = Except.error "boom" ∧
    renderE envErr rstA = Except.error "boom" :=
  ⟨(no_error_taxonomy envErr "boom").2.1 (initElement "X-EL") specApp rfl rfl,
    (no_error_taxonomy envErr "boom").2.2.2.2 rstA rfl rfl⟩
